import Mathlib

/-!
Shallow embedding of src/Pricing_calculator.py (a Streamlit pricing script).
Monetary quantities are modelled as exact rationals; Python float arithmetic
on the dyadic inputs used here is exact, so the model is faithful.
The script has no functions besides load_sheet and round50; the top-level
computation (lines 56-211) is embedded as one definition per assigned
variable, parameterised by the sheet-derived economics and the sidebar inputs.
-/

namespace PricingCalc

/-- Sheet-derived economics of one test (lines 56-64 of the script):
CURRENT PRICE, COGS, and the OPEX rate (OPEX % / 100, defaulting to 0.25). -/
structure Econ where
  current_price : ℚ
  cogs : ℚ
  opex_rate : ℚ
deriving DecidableEq

/-- Sidebar inputs (lines 37-53): markup multiplier, optional custom proposed
price (0 means unset), expected volume, OPEX adjustment percent, and the
minimum target margin percent. -/
structure Inputs where
  markup : ℚ
  custom_price : ℚ
  volume : ℕ
  opex_adjustment : ℚ
  target_margin : ℚ
deriving DecidableEq

/-- Replace only the volume field of an input record. -/
def withVolume (i : Inputs) (v : ℕ) : Inputs :=
  ⟨i.markup, i.custom_price, v, i.opex_adjustment, i.target_margin⟩

/-- Python's builtin round on a rational argument: round half to even. -/
def roundHalfEven (q : ℚ) : ℤ :=
  if q - ⌊q⌋ = 1 / 2 then (if 2 ∣ ⌊q⌋ then ⌊q⌋ else ⌊q⌋ + 1) else round q

/-- Line 27-28: round50(value) = int(round(value / 50.0)) * 50, i.e. the
nearest multiple of 50 with ties going to the even multiple. -/
def round50 (value : ℚ) : ℤ :=
  roundHalfEven (value / 50) * 50

/-- Python round(x, 1): nearest tenth, half to even (used at line 177). -/
def round1 (x : ℚ) : ℚ :=
  (roundHalfEven (x * 10) : ℚ) / 10

/-- Lines 66-72: the proposed price is round50 of the custom price when one
was entered (custom_price > 0), else round50 of cogs * markup. -/
def proposed_price (e : Econ) (i : Inputs) : ℤ :=
  if i.custom_price > 0 then round50 i.custom_price else round50 (e.cogs * i.markup)

/-- Line 76: current_opex = opex_rate * current_price. -/
def current_opex (e : Econ) : ℚ :=
  e.opex_rate * e.current_price

/-- Line 77: current_profit = current_price - cogs - current_opex. -/
def current_profit (e : Econ) : ℚ :=
  e.current_price - e.cogs - current_opex e

/-- Line 78: current_margin = current_profit / current_price * 100 when
current_price > 0, else 0. -/
def current_margin (e : Econ) : ℚ :=
  if e.current_price > 0 then current_profit e / e.current_price * 100 else 0

/-- Line 143: current_gross_profit = current_price - cogs. -/
def current_gross_profit (e : Econ) : ℚ :=
  e.current_price - e.cogs

/-- Line 81: proposed_opex = (opex_rate * proposed_price) * (1 + opex_adjustment / 100). -/
def proposed_opex (e : Econ) (i : Inputs) : ℚ :=
  (e.opex_rate * (proposed_price e i : ℚ)) * (1 + i.opex_adjustment / 100)

/-- Line 82: proposed_profit = proposed_price - cogs - proposed_opex. -/
def proposed_profit (e : Econ) (i : Inputs) : ℚ :=
  (proposed_price e i : ℚ) - e.cogs - proposed_opex e i

/-- Line 83: proposed_margin = proposed_profit / proposed_price * 100 when
proposed_price > 0, else 0. -/
def proposed_margin (e : Econ) (i : Inputs) : ℚ :=
  if (proposed_price e i : ℚ) > 0 then proposed_profit e i / (proposed_price e i : ℚ) * 100 else 0

/-- Line 144: proposed_gross_profit = proposed_price - cogs. -/
def proposed_gross_profit (e : Econ) (i : Inputs) : ℚ :=
  (proposed_price e i : ℚ) - e.cogs

/-- Line 86: total_revenue = proposed_price * volume. -/
def total_revenue (e : Econ) (i : Inputs) : ℚ :=
  (proposed_price e i : ℚ) * (i.volume : ℚ)

/-- Line 87: total_profit = proposed_profit * volume. -/
def total_profit (e : Econ) (i : Inputs) : ℚ :=
  proposed_profit e i * (i.volume : ℚ)

/-- Line 90: min_price_needed = (cogs + proposed_opex) / (1 - target_margin / 100).
Per-unit quantities; no division by volume appears in the script. -/
def min_price_needed (e : Econ) (i : Inputs) : ℚ :=
  (e.cogs + proposed_opex e i) / (1 - i.target_margin / 100)

/-- Line 91: margin_gap = proposed_price - min_price_needed. -/
def margin_gap (e : Econ) (i : Inputs) : ℚ :=
  (proposed_price e i : ℚ) - min_price_needed e i

/-- The three margin statuses assigned at lines 93-105. -/
inductive MarginStatus
  | belowTarget
  | atMinimum
  | healthy
deriving DecidableEq

/-- Lines 93-105: status is Below Target when margin_gap < 0, At Minimum when
0 <= margin_gap < 500, Healthy otherwise. The price itself is never changed. -/
def margin_status (e : Econ) (i : Inputs) : MarginStatus :=
  if margin_gap e i < 0 then MarginStatus.belowTarget
  else if margin_gap e i < 500 then MarginStatus.atMinimum
  else MarginStatus.healthy

/-- Lines 94 and 97: the price quoted in the warning and recommendation when
the status is Below Target is round50(min_price_needed). -/
def recommended_min_price (e : Econ) (i : Inputs) : ℤ :=
  round50 (min_price_needed e i)

/-- A scenario row of the Per Test Economics table (lines 146-170), kept
unrounded; the table applies round50 to each currency cell for display. -/
structure Scenario where
  revenue : ℚ
  cogs : ℚ
  grossProfit : ℚ
  opex : ℚ
  ebitda : ℚ
  marginPct : ℚ
deriving DecidableEq

/-- The Current column of the comparison table (lines 155-162), unrounded. -/
def currentScenario (e : Econ) : Scenario :=
  ⟨e.current_price, e.cogs, current_gross_profit e, current_opex e,
    current_profit e, current_margin e⟩

/-- The Proposed column of the comparison table (lines 163-170), unrounded. -/
def proposedScenario (e : Econ) (i : Inputs) : Scenario :=
  ⟨(proposed_price e i : ℚ), e.cogs, proposed_gross_profit e i, proposed_opex e i,
    proposed_profit e i, proposed_margin e i⟩

/-- Line 172: Difference row for price, round50(proposed_price - current_price). -/
def delta_price (e : Econ) (i : Inputs) : ℤ :=
  round50 ((proposed_price e i : ℚ) - e.current_price)

/-- Line 173: Difference row for COGS is the literal 0. -/
def delta_cogs (_e : Econ) (_i : Inputs) : ℤ :=
  0

/-- Line 174: round50(proposed_gross_profit - current_gross_profit). -/
def delta_gross_profit (e : Econ) (i : Inputs) : ℤ :=
  round50 (proposed_gross_profit e i - current_gross_profit e)

/-- Line 175: round50(proposed_opex - current_opex). -/
def delta_opex (e : Econ) (i : Inputs) : ℤ :=
  round50 (proposed_opex e i - current_opex e)

/-- Line 176: round50(proposed_profit - current_profit). -/
def delta_profit (e : Econ) (i : Inputs) : ℤ :=
  round50 (proposed_profit e i - current_profit e)

/-- Line 177: round(proposed_margin - current_margin, 1), from the unrounded
margin values. -/
def delta_margin (e : Econ) (i : Inputs) : ℚ :=
  round1 (proposed_margin e i - current_margin e)

/-- The Python exceptions a run of the script can raise. -/
inductive ScriptError
  | zeroDivisionError
  | nameError
deriving DecidableEq

/-- One top-to-bottom run of the script after the sheet data is loaded.
Line 90 divides by (1 - target_margin/100): ZeroDivisionError when that is 0.
Line 114 divides by current_price with no guard: ZeroDivisionError when it is 0.
Lines 196-210 then reference proposed_price_per_unit, total_ebitda, total_cogs,
total_opex and total_gross_profit, none of which is ever assigned anywhere in
the file, so every run that reaches line 199 raises NameError. -/
def script (e : Econ) (i : Inputs) : Except ScriptError Unit :=
  if (1 : ℚ) - i.target_margin / 100 = 0 then Except.error ScriptError.zeroDivisionError
  else if e.current_price = 0 then Except.error ScriptError.zeroDivisionError
  else Except.error ScriptError.nameError

/-! ## Definitions taken from the specification's words (for refinement
comparison only; the script never computes these). -/

/-- Spec section 4.3 rounding policy as the spec words it:
roundUp100(x) = ceil(x / 100) * 100. -/
def roundUp100 (x : ℚ) : ℤ :=
  ⌈x / 100⌉ * 100

/-- Spec section 4.1 as the spec words it: the raw (unrounded) derived price. -/
def spec_raw_price (unitCost markupMultiplier customPrice : ℚ) : ℚ :=
  if customPrice > 0 then customPrice else unitCost * markupMultiplier

/-- Spec section 4.3 as the spec words it: volume-scaled OPEX
baseOpex * (1 + 0.1 * ln (1 + volume / 50)) * (1 + opexSensitivityPct / 100)
with baseOpex = opexRate * currentPrice. -/
noncomputable def spec_opex (e : Econ) (i : Inputs) : ℝ :=
  ((e.opex_rate : ℝ) * (e.current_price : ℝ)) *
    (1 + (1 / 10) * Real.log (1 + (i.volume : ℝ) / 50)) *
    (1 + (i.opex_adjustment : ℝ) / 100)

/-- Spec section 4.4 as the spec words it:
minRequiredPrice = (cogsTotal + opexTotal) / (1 - targetMarginPct / 100) / volume,
with cogsTotal = unitCost * volume and opexTotal the spec's scaled OPEX. -/
noncomputable def spec_min_required_price (e : Econ) (i : Inputs) : ℝ :=
  ((e.cogs : ℝ) * (i.volume : ℝ) + spec_opex e i) /
    (1 - (i.target_margin : ℝ) / 100) / (i.volume : ℝ)

/-! ## Concrete inputs used by counterexamples and witnesses. -/

/-- The spec section 8 example economics: currentPrice 8000, COGS 2000, OPEX rate 0.25. -/
def exE : Econ := ⟨8000, 2000, 1 / 4⟩

/-- Margin-floor trigger inputs from spec section 8: markup 1.0, no custom
price, volume 100, no OPEX adjustment, target margin 20. -/
def exFloor : Inputs := ⟨1, 0, 100, 0, 20⟩

/-- Inputs with a custom price of 3000, volume 50. -/
def exCustom : Inputs := ⟨3 / 2, 3000, 50, 0, 20⟩

/-- Inputs with a custom price of 120, which round50 lowers to 100. -/
def exCustom120 : Inputs := ⟨3 / 2, 120, 20, 0, 20⟩

/-- Economics with current price 7720, giving current_opex 1930. -/
def exE9 : Econ := ⟨7720, 2000, 1 / 4⟩

/-- Inputs with a custom price of 8050, giving proposed_opex 2012.5. -/
def exI9 : Inputs := ⟨3 / 2, 8050, 20, 0, 20⟩

/-- The spec section 8 example inputs: markup 1.5, no custom price, volume 100. -/
def exI8 : Inputs := ⟨3 / 2, 0, 100, 0, 20⟩

/-- Degenerate economics with zero current price and zero cost. -/
def exZero : Econ := ⟨0, 0, 1 / 4⟩

/-! ## Helper lemmas about the rounding functions. -/

theorem roundHalfEven_sub_le (q : ℚ) : |(roundHalfEven q : ℚ) - q| ≤ 1 / 2 := by
  unfold roundHalfEven
  by_cases h : q - ⌊q⌋ = 1 / 2
  · rw [if_pos h]
    by_cases h2 : (2 : ℤ) ∣ ⌊q⌋
    · rw [if_pos h2, abs_le]
      constructor <;> linarith
    · rw [if_neg h2, abs_le]
      push_cast
      constructor <;> linarith
  · rw [if_neg h, abs_sub_comm]
    exact abs_sub_round q

theorem round50_sub_le (x : ℚ) : |(round50 x : ℚ) - x| ≤ 25 := by
  have h := roundHalfEven_sub_le (x / 50)
  unfold round50
  have e1 : ((roundHalfEven (x / 50) * 50 : ℤ) : ℚ) - x =
      ((roundHalfEven (x / 50) : ℚ) - x / 50) * 50 := by
    push_cast
    ring
  rw [e1, abs_mul]
  have e2 : |(50 : ℚ)| = 50 := by norm_num
  rw [e2]
  linarith

theorem round50_dvd (x : ℚ) : (50 : ℤ) ∣ round50 x :=
  ⟨roundHalfEven (x / 50), mul_comm (roundHalfEven (x / 50)) 50⟩

theorem round1_sub_le (x : ℚ) : |round1 x - x| ≤ 1 / 20 := by
  have h := roundHalfEven_sub_le (x * 10)
  unfold round1
  have e1 : (roundHalfEven (x * 10) : ℚ) / 10 - x =
      ((roundHalfEven (x * 10) : ℚ) - x * 10) / 10 := by
    ring
  rw [e1, abs_div]
  have e2 : |(10 : ℚ)| = 10 := by norm_num
  rw [e2]
  linarith

/-! ## Claim theorems. -/

/-- C2 counterexample: at the spec section 8 economics with a custom price of
3000 and volume 50, the script's proposed OPEX is 750 = 0.25 * 3000, while the
spec formula baseOpex * (1 + 0.1 * ln (1 + volume / 50)) * (1 + adj / 100)
anchored to the current price 8000 exceeds 2000; the two differ. -/
theorem c2_counterexample :
    ((proposed_opex exE exCustom : ℚ) : ℝ) ≠ spec_opex exE exCustom := by
  have hcode : proposed_opex exE exCustom = 750 := by
    norm_num [proposed_opex, proposed_price, exE, exCustom, round50, roundHalfEven, round_eq]
  rw [hcode]
  have hcast : ((750 : ℚ) : ℝ) = 750 := by norm_cast
  rw [hcast]
  have hval : spec_opex exE exCustom = 2000 * (1 + 1 / 10 * Real.log 2) := by
    norm_num [spec_opex, exE, exCustom]
  rw [hval]
  have hlog : 0 < Real.log 2 := Real.log_pos (by norm_num)
  exact ne_of_lt (by nlinarith)

/-- C2 (amended): the script's proposed OPEX equals
opexRate * proposedPrice * (1 + opexAdjustmentPct / 100) - anchored to the
rounded proposed price, not the current price, with no logarithmic volume
term: the value is the same at every volume. -/
theorem c2_opex_amended (e : Econ) (i : Inputs) (v : ℕ) :
    proposed_opex e (withVolume i v) =
      e.opex_rate * (proposed_price e i : ℚ) * (1 + i.opex_adjustment / 100) := by
  simp [proposed_opex, proposed_price, withVolume]

/-- C3 counterexample: round50 120 = 100, which is below 120, while the spec's
roundUp100 would give 200; the script's rounding is to the nearest multiple of
50 and can round down. -/
theorem c3_counterexample :
    round50 120 = 100 ∧ roundUp100 120 = 200 ∧ ¬ ((120 : ℚ) ≤ (round50 120 : ℚ)) := by
  refine ⟨?_, ?_, ?_⟩
  · norm_num [round50, roundHalfEven, round_eq]
  · unfold roundUp100
    have h : ⌈(120 / 100 : ℚ)⌉ = 2 := by
      rw [Int.ceil_eq_iff]
      norm_num
    rw [h]
    norm_num
  · norm_num [round50, roundHalfEven, round_eq]

/-- C3 (amended): the script's currency rounding function round50 rounds to
the nearest multiple of 50 (ties to even), so it stays within 25 of its
argument and always yields a multiple of 50. -/
theorem c3_round50_amended (x : ℚ) :
    x - 25 ≤ (round50 x : ℚ) ∧ (round50 x : ℚ) ≤ x + 25 ∧ (50 : ℤ) ∣ round50 x := by
  have h := round50_sub_le x
  rw [abs_le] at h
  exact ⟨by linarith [h.1], by linarith [h.2], round50_dvd x⟩

/-- C4: at the spec section 8 example input, which the claim says must
complete, the script run fails with a NameError, because lines 196-210
reference variables that are never assigned; the script performs no
InvalidInput validation anywhere. -/
theorem c4_script_always_fails :
    script exE exI8 = Except.error ScriptError.nameError := by
  norm_num [script, exE, exI8]

/-- C6 counterexample: with a custom price of 120 (which is positive), the
derived price is round50 120 = 100, not the custom price itself: rounding is
applied during derivation, not only as a final step. -/
theorem c6_counterexample :
    exCustom120.custom_price = 120 ∧ (0 : ℚ) < 120 ∧
      proposed_price exE exCustom120 = 100 ∧ (100 : ℚ) ≠ 120 := by
  refine ⟨rfl, by norm_num, ?_, by norm_num⟩
  norm_num [proposed_price, exCustom120, round50, roundHalfEven, round_eq]

/-- C6 (amended): the derived price is round50 of the spec's raw price
(customPrice when positive, else unitCost * markup); it is total, within 25 of
the raw price, and always a multiple of 50. -/
theorem c6_derive_price_amended (e : Econ) (i : Inputs) :
    |(proposed_price e i : ℚ) - spec_raw_price e.cogs i.markup i.custom_price| ≤ 25 ∧
      (50 : ℤ) ∣ proposed_price e i := by
  unfold proposed_price spec_raw_price
  by_cases h : i.custom_price > 0
  · rw [if_pos h, if_pos h]
    exact ⟨round50_sub_le _, round50_dvd _⟩
  · rw [if_neg h, if_neg h]
    exact ⟨round50_sub_le _, round50_dvd _⟩

/-- C7 (confirmed): the current scenario satisfies revenue = currentPrice,
cogs = unitCost, grossProfit = revenue - cogs, opex = opexRate * revenue and
ebitda = grossProfit - opex; it is built from the economics record alone, so
it cannot depend on the proposed scenario's volume input. -/
theorem c7_current_scenario (e : Econ) :
    (currentScenario e).revenue = e.current_price ∧
      (currentScenario e).cogs = e.cogs ∧
      (currentScenario e).grossProfit = (currentScenario e).revenue - (currentScenario e).cogs ∧
      (currentScenario e).opex = e.opex_rate * (currentScenario e).revenue ∧
      (currentScenario e).ebitda = (currentScenario e).grossProfit - (currentScenario e).opex :=
  ⟨rfl, rfl, rfl, rfl, rfl⟩

/-- C8 (confirmed): when a scenario's revenue (its price) is zero, its margin
percentage is exactly 0 - the guard in the script returns 0 instead of
dividing. -/
theorem c8_zero_revenue_guard (e : Econ) (i : Inputs) :
    (e.current_price = 0 → current_margin e = 0) ∧
      ((proposed_price e i : ℚ) = 0 → proposed_margin e i = 0) := by
  constructor
  · intro h
    simp [current_margin, h]
  · intro h
    simp [proposed_margin, h]

/-- C8 witness: concrete zero-price economics and a zero derived price give
margin 0 in both scenarios. -/
theorem c8_zero_revenue_guard_witness :
    current_margin exZero = 0 ∧ proposed_margin exZero exI8 = 0 := by
  have h := c8_zero_revenue_guard exZero exI8
  refine ⟨h.1 rfl, h.2 ?_⟩
  norm_num [proposed_price, exZero, exI8, round50, roundHalfEven, round_eq]

/-- C9 counterexample: with current price 7720, COGS 2000, OPEX rate 0.25 and
custom price 8050, the table's OPEX difference cell is round50(82.5) = 100,
which equals neither the unrounded difference 82.5 nor the difference of the
rounded column values 2000 - 1950 = 50. -/
theorem c9_counterexample :
    delta_opex exE9 exI9 = 100 ∧
      proposed_opex exE9 exI9 - current_opex exE9 = 165 / 2 ∧
      (100 : ℚ) ≠ 165 / 2 ∧
      round50 (proposed_opex exE9 exI9) - round50 (current_opex exE9) = 50 ∧
      (100 : ℤ) ≠ 50 := by
  refine ⟨?_, ?_, by norm_num, ?_, by norm_num⟩ <;>
    norm_num [delta_opex, proposed_opex, current_opex, proposed_price, exE9, exI9,
      round50, roundHalfEven, round_eq]

/-- C9 (amended): every currency difference cell is round50 of the unrounded
proposed-minus-current difference (COGS difference is the literal 0), hence
within 25 of it; the margin difference is the unrounded margin difference
rounded to one decimal, hence within 0.05 of it. -/
theorem c9_deltas_amended (e : Econ) (i : Inputs) :
    |(delta_price e i : ℚ) - ((proposed_price e i : ℚ) - e.current_price)| ≤ 25 ∧
      delta_cogs e i = 0 ∧
      |(delta_gross_profit e i : ℚ) - (proposed_gross_profit e i - current_gross_profit e)| ≤ 25 ∧
      |(delta_opex e i : ℚ) - (proposed_opex e i - current_opex e)| ≤ 25 ∧
      |(delta_profit e i : ℚ) - (proposed_profit e i - current_profit e)| ≤ 25 ∧
      |delta_margin e i - (proposed_margin e i - current_margin e)| ≤ 1 / 20 :=
  ⟨round50_sub_le _, rfl, round50_sub_le _, round50_sub_le _, round50_sub_le _,
    round1_sub_le _⟩

/-- C10 (confirmed): total profit is exactly the per-unit proposed profit
times volume, total revenue is exactly the proposed price times volume, and
the per-unit OPEX and margin are the same at every volume. -/
theorem c10_volume_scaling (e : Econ) (i : Inputs) :
    total_profit e i = ((proposed_price e i : ℚ) - e.cogs - proposed_opex e i) * (i.volume : ℚ) ∧
      total_revenue e i = (proposed_price e i : ℚ) * (i.volume : ℚ) ∧
      (∀ v1 v2 : ℕ, proposed_opex e (withVolume i v1) = proposed_opex e (withVolume i v2)) ∧
      (∀ v1 v2 : ℕ, proposed_margin e (withVolume i v1) = proposed_margin e (withVolume i v2)) :=
  ⟨rfl, rfl, fun _ _ => rfl, fun _ _ => rfl⟩

/-- C1 counterexample: at the spec section 8 margin-floor trigger (markup 1.0,
target margin 20), the proposed price 2000 is below the claim's
minRequiredPrice, the script flags Below Target, yet the proposed price stays
in use (total revenue is 2000 * 100) and the resulting margin is -25, far
below the 20 the claim guarantees: no price adjustment or recomputation
happens. -/
theorem c1_counterexample :
    ((proposed_price exE exFloor : ℤ) : ℝ) < spec_min_required_price exE exFloor ∧
      margin_status exE exFloor = MarginStatus.belowTarget ∧
      proposed_margin exE exFloor = -25 ∧
      exFloor.target_margin = 20 ∧
      total_revenue exE exFloor = 2000 * 100 := by
  have hprice : proposed_price exE exFloor = 2000 := by
    norm_num [proposed_price, exE, exFloor, round50, roundHalfEven, round_eq]
  refine ⟨?_, ?_, ?_, rfl, ?_⟩
  · rw [hprice]
    have hlog : 0 < Real.log 3 := Real.log_pos (by norm_num)
    have hval : spec_min_required_price exE exFloor =
        (200000 + 2000 * (1 + 1 / 10 * Real.log 3)) / 80 := by
      norm_num [spec_min_required_price, spec_opex, exE, exFloor, div_div]
    rw [hval, lt_div_iff₀ (by norm_num : (0 : ℝ) < 80)]
    push_cast
    nlinarith
  · norm_num [margin_status, margin_gap, min_price_needed, proposed_opex, proposed_price,
      exE, exFloor, round50, roundHalfEven, round_eq]
  · norm_num [proposed_margin, proposed_profit, proposed_opex, proposed_price,
      exE, exFloor, round50, roundHalfEven, round_eq]
  · norm_num [total_revenue, proposed_price, exE, exFloor, round50, roundHalfEven, round_eq]

/-- C1 (amended): when the proposed price is below the script's per-unit
min_price_needed = (cogs + proposed_opex) / (1 - targetMargin / 100) (no
division by volume), the script only sets the status Below Target and
recommends round50(min_price_needed), which is within 25 of the true minimum;
it never changes the price or recomputes the scenario. When the gap is
nonnegative the status is not Below Target. -/
theorem c1_margin_floor_amended (e : Econ) (i : Inputs) :
    (margin_gap e i < 0 → margin_status e i = MarginStatus.belowTarget ∧
      |(recommended_min_price e i : ℚ) - min_price_needed e i| ≤ 25) ∧
      (0 ≤ margin_gap e i → margin_status e i ≠ MarginStatus.belowTarget) := by
  constructor
  · intro h
    exact ⟨by simp [margin_status, h], round50_sub_le _⟩
  · intro h
    unfold margin_status
    rw [if_neg (not_lt.mpr h)]
    split <;> simp

/-- C1 witness: at the margin-floor trigger input the gap is negative, the
status is Below Target and the recommended price is within 25 of the minimum. -/
theorem c1_margin_floor_amended_witness :
    margin_status exE exFloor = MarginStatus.belowTarget ∧
      |(recommended_min_price exE exFloor : ℚ) - min_price_needed exE exFloor| ≤ 25 :=
  (c1_margin_floor_amended exE exFloor).1 (by
    norm_num [margin_gap, min_price_needed, proposed_opex, proposed_price,
      exE, exFloor, round50, roundHalfEven, round_eq])

/-- C5 counterexample: doubling the volume from 20 to 40 leaves the proposed
scenario's COGS (and OPEX) cell unchanged: the per-test table does not scale
with volume, so volume does not strictly increase the scenario's cogs. -/
theorem c5_counterexample :
    (20 : ℕ) < 40 ∧
      (proposedScenario exE (withVolume exFloor 40)).cogs =
        (proposedScenario exE (withVolume exFloor 20)).cogs ∧
      (proposedScenario exE (withVolume exFloor 40)).cogs = 2000 ∧
      (proposedScenario exE (withVolume exFloor 40)).opex =
        (proposedScenario exE (withVolume exFloor 20)).opex :=
  ⟨by norm_num, rfl, rfl, rfl⟩

/-- C5 (amended): with everything else fixed, a larger volume strictly
increases total revenue provided the derived price is positive, while the
per-test scenario's cogs and opex are unchanged (OPEX has no volume term). -/
theorem c5_monotonicity_amended (e : Econ) (i : Inputs) (v1 v2 : ℕ)
    (hv : v1 < v2) (hp : 0 < proposed_price e i) :
    total_revenue e (withVolume i v1) < total_revenue e (withVolume i v2) ∧
      (proposedScenario e (withVolume i v1)).cogs =
        (proposedScenario e (withVolume i v2)).cogs ∧
      (proposedScenario e (withVolume i v1)).opex =
        (proposedScenario e (withVolume i v2)).opex := by
  refine ⟨?_, rfl, rfl⟩
  have hp2 : (0 : ℚ) < (proposed_price e i : ℚ) := by exact_mod_cast hp
  have hv2 : (v1 : ℚ) < (v2 : ℚ) := by exact_mod_cast hv
  show (proposed_price e i : ℚ) * (v1 : ℚ) < (proposed_price e i : ℚ) * (v2 : ℚ)
  exact mul_lt_mul_of_pos_left hv2 hp2

/-- C5 witness: at the example economics, raising the volume from 20 to 40
raises total revenue while the per-test cogs and opex cells are unchanged. -/
theorem c5_monotonicity_amended_witness :
    total_revenue exE (withVolume exFloor 20) < total_revenue exE (withVolume exFloor 40) ∧
      (proposedScenario exE (withVolume exFloor 20)).cogs =
        (proposedScenario exE (withVolume exFloor 40)).cogs ∧
      (proposedScenario exE (withVolume exFloor 20)).opex =
        (proposedScenario exE (withVolume exFloor 40)).opex :=
  c5_monotonicity_amended exE exFloor 20 40 (by norm_num) (by
    norm_num [proposed_price, exE, exFloor, round50, roundHalfEven, round_eq])

end PricingCalc
